/-
Verification of the landscaping-design-bot repository.

Shallow embedding of the conversational state machine in `src/app.py` and of
the Gemini service wrapper in `src/services/gemini_image_service.py`.

Modelling conventions:
  * Python strings are Lean `String`s; the Python string operations used by the
    source (`lower`, `strip`, `split`, `startswith`, slicing, `in`, `join`,
    `title`) are re-implemented below on `List Char`, faithful to CPython
    semantics on the character ranges the repository uses (ASCII plus the
    Latin-1 letters appearing in the Italian lexicons).
  * Python values coming out of `json.loads` are modelled by the inductive
    `Json` (JSON numbers are modelled as integers only; no claim involves
    fractional payloads).  `json.loads` itself is an external library call and
    is passed in as an oracle `loads : String → Except Unit Json`; an `error`
    outcome models `json.JSONDecodeError`.
  * Image bytes are `List Nat`.
  * Calls to the external Gemini capability are modelled by oracle fields of
    `Ext`: each holds either the response the capability produced or the
    exception the call raised (`Except String …`).
  * A handler returns `Except String (Session × ServiceState × List Action)`:
    `ok` is normal completion with the updated Chainlit session, the updated
    (process-wide) service state and the list of user-visible/outbound effects;
    `error e` models a Python exception that propagates out of the handler
    uncaught.  On such uncaught paths the effects emitted before the raise are
    not tracked (no claim observes them).
-/
import Mathlib

namespace GardenBot

/-! ### Python string primitives (re-implemented on `List Char`) -/

/-- Model of CPython `str.lower` for one character, on the ranges used by the
repository: ASCII `A`–`Z` and Latin-1 `À`–`Þ` (except `×`) map to lowercase;
everything else is unchanged. -/
def pyCharLower (c : Char) : Char :=
  let n := c.toNat
  if (65 ≤ n ∧ n ≤ 90) ∨ (192 ≤ n ∧ n ≤ 222 ∧ n ≠ 215) then Char.ofNat (n + 32) else c

/-- Model of CPython `str.upper` for one character (same ranges). -/
def pyCharUpper (c : Char) : Char :=
  let n := c.toNat
  if (97 ≤ n ∧ n ≤ 122) ∨ (224 ≤ n ∧ n ≤ 254 ∧ n ≠ 247) then Char.ofNat (n - 32) else c

/-- Model of Python `str.lower()`. -/
def pyLower (s : String) : String := String.mk (s.data.map pyCharLower)

/-- Letters, for the `str.title()` model (ASCII and Latin-1 letters). -/
def pyIsAlpha (c : Char) : Bool :=
  let n := c.toNat
  decide ((65 ≤ n ∧ n ≤ 90) ∨ (97 ≤ n ∧ n ≤ 122) ∨
    (192 ≤ n ∧ n ≤ 255 ∧ n ≠ 215 ∧ n ≠ 247))

/-- Helper for `pyTitle`: the Bool records whether the previous character was
a letter (cased). -/
def pyTitleAux : List Char → Bool → List Char
  | [], _ => []
  | c :: rest, prevAlpha =>
    (if prevAlpha then pyCharLower c else pyCharUpper c) :: pyTitleAux rest (pyIsAlpha c)

/-- Model of Python `str.title()`. -/
def pyTitle (s : String) : String := String.mk (pyTitleAux s.data false)

/-- Whitespace stripped by Python `str.strip()` (the ASCII whitespace class;
the repository never feeds it exotic Unicode spaces). -/
def isPySpace (c : Char) : Bool :=
  c == ' ' || c == '\t' || c == '\n' || c == '\r' || c == '\x0b' || c == '\x0c'

/-- Model of Python `str.strip()`. -/
def pyStrip (s : String) : String :=
  String.mk (((s.data.dropWhile isPySpace).reverse.dropWhile isPySpace).reverse)

/-- `startsChars pre l` : does `l` start with `pre`? (Python `str.startswith`.) -/
def startsChars : List Char → List Char → Bool
  | [], _ => true
  | _ :: _, [] => false
  | a :: as, b :: bs => a == b && startsChars as bs

/-- `charsContains hay needle` : Python `needle in hay` substring test. -/
def charsContains (hay needle : List Char) : Bool :=
  match hay with
  | [] => startsChars needle []
  | c :: t => startsChars needle (c :: t) || charsContains t needle

/-- Python `sub in hay` on strings. -/
def strContains (hay sub : String) : Bool := charsContains hay.data sub.data

/-- First occurrence of (non-empty) `sep` in a character list: returns the
characters before it and the characters after it. -/
def findSplit (sep : List Char) : List Char → Option (List Char × List Char)
  | [] => none
  | c :: rest =>
    if startsChars sep (c :: rest) then some ([], (c :: rest).drop sep.length)
    else
      match findSplit sep rest with
      | some (pre, post) => some (c :: pre, post)
      | none => none

/-- Fuelled worker for `pySplit`; for a non-empty separator the fuel
`l.length + 1` is never exhausted, because every found occurrence strictly
shortens the remainder. -/
def pySplitAux (sep : List Char) : Nat → List Char → List (List Char)
  | 0, l => [l]
  | Nat.succ fuel, l =>
    match findSplit sep l with
    | none => [l]
    | some (pre, post) => pre :: pySplitAux sep fuel post

/-- Model of Python `str.split(sep)` for a non-empty separator. -/
def pySplit (sep l : List Char) : List (List Char) := pySplitAux sep (l.length + 1) l

/-- Python `sep.join(strs)` on a list of strings. -/
def joinSep (sep : String) : List String → String
  | [] => ""
  | [x] => x
  | x :: y :: rest => x ++ sep ++ joinSep sep (y :: rest)

/-! ### Python values produced by `json.loads` -/

/-- Python values as produced by `json.loads` (JSON numbers restricted to
integers; no claim involves fractional payloads). -/
inductive Json where
  | null : Json
  | bool (b : Bool) : Json
  | num (n : Int) : Json
  | str (s : String) : Json
  | arr (xs : List Json) : Json
  | obj (fields : List (String × Json)) : Json

/-- Python truthiness (`if x:`) for `Json` values. -/
def pyTruthy : Json → Bool
  | Json.null => false
  | Json.bool b => b
  | Json.num n => n != 0
  | Json.str s => !s.isEmpty
  | Json.arr xs => !xs.isEmpty
  | Json.obj fs => !fs.isEmpty

/-- `dict.get(key, default)` on the field list of a `Json.obj`. -/
def obj_get (fs : List (String × Json)) (key : String) (default : Json) : Json :=
  (((fs.find? (fun p => p.1 == key)).map (fun p => p.2)).getD default)

/-- Python iteration (`for x in j`): lists yield items, strings yield their
characters as one-character strings, dicts yield their keys; other values
raise `TypeError`. -/
def pyIter : Json → Except String (List Json)
  | Json.arr xs => Except.ok xs
  | Json.str s => Except.ok (s.data.map (fun c => Json.str (String.mk [c])))
  | Json.obj fs => Except.ok (fs.map (fun p => Json.str p.1))
  | _ => Except.error "TypeError: object is not iterable"

mutual

/-- Python `str(x)` for `Json` values. -/
def pyStr : Json → String
  | Json.null => "None"
  | Json.bool true => "True"
  | Json.bool false => "False"
  | Json.num n => toString n
  | Json.str s => s
  | Json.arr xs => "[" ++ joinSep ", " (pyReprList xs) ++ "]"
  | Json.obj fs => "\x7b" ++ joinSep ", " (pyReprFields fs) ++ "\x7d"

/-- Python `repr(x)` for `Json` values (used for elements of containers). -/
def pyRepr : Json → String
  | Json.null => "None"
  | Json.bool true => "True"
  | Json.bool false => "False"
  | Json.num n => toString n
  | Json.str s => "\x27" ++ s ++ "\x27"
  | Json.arr xs => "[" ++ joinSep ", " (pyReprList xs) ++ "]"
  | Json.obj fs => "\x7b" ++ joinSep ", " (pyReprFields fs) ++ "\x7d"

def pyReprList : List Json → List String
  | [] => []
  | x :: xs => pyRepr x :: pyReprList xs

def pyReprFields : List (String × Json) → List String
  | [] => []
  | (k, v) :: fs => ("\x27" ++ k ++ "\x27: " ++ pyRepr v) :: pyReprFields fs

end

/-- Python `sep.join(j)`: every iterated item must be a `str`, otherwise a
`TypeError` is raised. -/
def pyJoinStrs (sep : String) (j : Json) : Except String String := do
  let items ← pyIter j
  let strs ← items.mapM (fun x =>
    match x with
    | Json.str s => Except.ok s
    | _ => Except.error "TypeError: sequence item: expected str instance")
  Except.ok (joinSep sep strs)

/-- Python slicing `s[:n]` (by code point, as CPython does). -/
def strTake (n : Nat) (s : String) : String := String.mk (s.data.take n)

/-! ### Data model -/

/-- `SessionState` from `src/app.py` (class `SessionState`). -/
inductive SessionState where
  | WELCOME
  | WAITING_IMAGE
  | ANALYZING
  | COLLECTING_STYLE
  | COLLECTING_ELEMENTS
  | READY_TO_GENERATE
  | GENERATED
deriving Repr, DecidableEq

/-- The Chainlit `cl.user_session` keys set by `on_chat_start` in
`src/app.py`.  `elements` and `excluded` hold whatever Python value
`handle_chat` stored there (a list of strings in the intended flow, but the
code stores the interpreter payload's entries unchecked), so they are `Json`.
-/
structure Session where
  state : SessionState
  uploaded_image : Option (List Nat)
  style : Option String
  elements : Json
  excluded : Json
  user_description : String
  preserve : List String
  photo_analysis : Option String

/-- One turn appended to `GeminiImageService.chat_history`. -/
structure ChatTurn where
  role : String
  text : String
  has_image : Bool
deriving Repr, DecidableEq

/-- The mutable fields of the (process-wide, singleton) `GeminiImageService`
instance: `chat_history`, `current_image`, `original_image`
(`src/services/gemini_image_service.py`, `__init__`). -/
structure ServiceState where
  chat_history : List ChatTurn
  current_image : Option (List Nat)
  original_image : Option (List Nat)
deriving Repr, DecidableEq

/-- `part.inline_data` of a response part: `data` is `None` or bytes. -/
structure InlineData where
  data : Option (List Nat)
deriving Repr, DecidableEq

/-- One part of the image-model response (`response.candidates[0].content.parts`).
`inline_data` is `None` or a blob. -/
structure Part where
  inline_data : Option InlineData
deriving Repr, DecidableEq

/-- The rendering directive assembled by `generate_landscape_rendering`
(lines 192–245 of `src/services/gemini_image_service.py`).  The final
`IMAGE_EDITING_PROMPT_TEMPLATE.format(...)` step only interpolates these
fields into a constant template string and is not modelled textually (no
claim depends on the literal template). -/
structure Directive where
  image : List Nat
  preserve_list : List String
  preserve_text : String
  style_desc : String
  modifications_text : String
  lighting : String
  additional_notes : String
deriving Repr, DecidableEq

/-- User-visible / outbound effects of one handler run. -/
inductive Action where
  | msg (content : String)
  | statusUpdate (content : String)
  | showImage (content : String) (data : List Nat)
  | invokeImageGen (d : Directive)
deriving Repr, DecidableEq

/-- Outcomes of the external capability calls a handler run may perform;
each field is consumed by at most one call site per run.  `Except.error e`
models the call raising an exception with message `e`. -/
structure Ext where
  interpret_response : Except String String
  loads : String → Except Unit Json
  gen_response : Except String (List Part)
  refine_response : Except String (List Part)
  chat_response : Except String String

/-! ### `GeminiImageService` (src/services/gemini_image_service.py) -/

/-- The markdown-fence stripping performed on the interpreter response before
`json.loads` (`interpret_user_request`, lines 405–411):
`strip`; if the text starts with three backticks, take `split(fence)[1]`
(the guard guarantees the split has at least two entries, so the `getD` default
is never used) and drop a leading `"json"`; `strip` again. -/
def strip_markdown (response_text : String) : String :=
  let fence : List Char := ['\x60', '\x60', '\x60']
  let t := pyStrip response_text
  let t :=
    if startsChars fence t.data then
      let seg := (pySplit fence t.data).getD 1 []
      let seg := if startsChars "json".data seg then seg.drop 4 else seg
      String.mk seg
    else t
  pyStrip t

/-- The fallback dict built by the `except json.JSONDecodeError` branch of
`interpret_user_request` (lines 415–421). -/
def fallback_payload (user_message : String) : Json :=
  Json.obj [("elements", Json.arr [Json.str user_message]),
            ("excluded", Json.arr []),
            ("summary", Json.str (strTake 100 user_message))]

/-- `interpret_user_request` (lines 345–421): the model call produced
`response_text`; the fence-stripped text is fed to `json.loads` (the `loads`
oracle); a parse failure is caught and replaced by the fallback dict, any
successfully parsed value is returned unchanged. -/
def interpret_user_request (user_message : String) (response_text : String)
    (loads : String → Except Unit Json) : Json :=
  match loads (strip_markdown response_text) with
  | Except.ok result => result
  | Except.error _ => fallback_payload user_message

/-- The fixed baseline preserve-list (line 205). -/
def base_preserve_list : List String :=
  ["la casa principale", "le finestre e porte", "il tetto", "le fondamenta"]

/-- The `"modern"` entry of the style table (line 211). -/
def modern_description : String :=
  "Moderno e minimalista con linee pulite, materiali contemporanei come cemento e acciaio corten, piante architettoniche"

/-- `style_descriptions` (lines 210–217), in declaration order. -/
def style_descriptions : List (String × String) :=
  [("modern", modern_description),
   ("mediterranean", "Mediterraneo caldo con terracotta, ulivi, lavanda, pergole in legno, ghiaia naturale"),
   ("tropical", "Tropicale lussureggiante con palme, piante esotiche, piscina naturale, legno esotico"),
   ("zen", "Giapponese zen con ghiaia rastrellata, muschio, lanterne di pietra, bambù, acqua"),
   ("english", "Giardino all\x27inglese romantico con rose, bordure fiorite, prato verde, archi"),
   ("contemporary", "Contemporaneo con outdoor living, cucina esterna, fire pit, sedute integrate")]

/-- `style_descriptions.get(style, style_descriptions["modern"])` (line 219).
The caller passes `cl.user_session.get("style", "modern")`, whose stored value
can be Python `None`; `None` is not a key of the table, so it also falls back
to the `"modern"` description. -/
def style_desc_get (style : Option String) : String :=
  match style with
  | some s =>
    match style_descriptions.find? (fun p => p.1 == s) with
    | some p => p.2
    | none => modern_description
  | none => modern_description

/-- Prompt-assembly half of `generate_landscape_rendering` (lines 204–245):
builds the preserve-list (baseline prepended to the session-specific items;
`extend` on a falsy argument is a no-op, which coincides with appending
`getD []`), resolves the style, joins the modifications (a `TypeError` from
`join` on a malformed value propagates as a raise), and packages the directive.
-/
def build_render_call (image_data : List Nat) (style : Option String)
    (modifications : Json) (preserve_elements : Option (List String))
    (lighting : String) (additional_notes : String) : Except String Directive :=
  let preserve_list := base_preserve_list ++
    (match preserve_elements with
     | some l => l
     | none => [])
  let style_desc := style_desc_get style
  match (if pyTruthy modifications then pyJoinStrs "\n- " modifications
         else Except.ok "Miglioramento generale del landscape") with
  | Except.error e => Except.error e
  | Except.ok modifications_text =>
    Except.ok { image := image_data, preserve_list := preserve_list,
                preserve_text := joinSep "\n- " preserve_list,
                style_desc := style_desc,
                modifications_text := modifications_text, lighting := lighting,
                additional_notes := additional_notes }

/-- `if part.inline_data and part.inline_data.data:` — the truthiness test of
lines 264/302 together with the extracted bytes: `inline_data` must not be
`None` and its `data` must be non-`None`, non-empty bytes. -/
def part_image_data (p : Part) : Option (List Nat) :=
  match p.inline_data with
  | none => none
  | some d =>
    match d.data with
    | none => none
    | some bs => if bs.isEmpty then none else some bs

/-- The extraction loop of lines 263–266 / 301–304: the first part whose
inline data passes the truthiness test wins; later parts are ignored. -/
def first_inline_image : List Part → Option (List Nat)
  | [] => none
  | p :: rest =>
    match part_image_data p with
    | some bs => some bs
    | none => first_inline_image rest

/-- Call-and-extract half of `generate_landscape_rendering` (lines 253–268):
the external call either raises (`resp = error`) or yields the response parts;
the first inline image becomes the new `current_image` and is returned, and
if no part carries an image a `ValueError` is raised. -/
def run_render (svc : ServiceState) (_d : Directive)
    (resp : Except String (List Part)) : Except String (ServiceState × List Nat) :=
  match resp with
  | Except.error e => Except.error e
  | Except.ok parts =>
    match first_inline_image parts with
    | some data => Except.ok ({ svc with current_image := some data }, data)
    | none => Except.error "Nessuna immagine generata nella risposta"

/-- `generate_landscape_rendering` (lines 192–268) as the composition of the
prompt-assembly and call-and-extract halves. -/
def generate_landscape_rendering (svc : ServiceState) (image_data : List Nat)
    (style : Option String) (modifications : Json)
    (preserve_elements : Option (List String)) (lighting : String)
    (additional_notes : String) (resp : Except String (List Part)) :
    Except String (ServiceState × List Nat) :=
  match build_render_call image_data style modifications preserve_elements
          lighting additional_notes with
  | Except.error e => Except.error e
  | Except.ok d => run_render svc d resp

/-- `refine_rendering` (lines 270–306): raises if there is no current image;
otherwise performs the call and extracts the first inline image (note the
shorter error text `"Nessuna immagine generata"` of line 306). -/
def refine_rendering (svc : ServiceState) (_feedback : String)
    (resp : Except String (List Part)) : Except String (ServiceState × List Nat) :=
  match svc.current_image with
  | none => Except.error "Nessuna immagine corrente da raffinare"
  | some _ =>
    match resp with
    | Except.error e => Except.error e
    | Except.ok parts =>
      match first_inline_image parts with
      | some data => Except.ok ({ svc with current_image := some data }, data)
      | none => Except.error "Nessuna immagine generata"

/-- `GeminiImageService.chat` (lines 124–186), successful-call case: when an
image is attached it is stored as both `original_image` and `current_image`
before the model call; on success the user turn and the model turn are
appended to the shared `chat_history`.  (If the model call raises, the raise
propagates to the caller; the pre-call image stores are not tracked on that
path since no claim observes them.) -/
def service_chat (svc : ServiceState) (message : String)
    (image_data : Option (List Nat)) (response_text : String) : ServiceState :=
  let svc :=
    match image_data with
    | some img => { svc with original_image := some img, current_image := some img }
    | none => svc
  { svc with chat_history := svc.chat_history ++
      [{ role := "user", text := message, has_image := image_data.isSome },
       { role := "model", text := response_text, has_image := false }] }

/-- `reset_session` (lines 427–431). -/
def reset_session (_svc : ServiceState) : ServiceState :=
  { chat_history := [], current_image := none, original_image := none }

/-! ### Message literals of `src/app.py` -/

def upload_prompt_msg : String :=
  "📸 Per favore, carica prima una foto del tuo giardino usando il pulsante 📎"

def style_chosen_msg (st : String) : String :=
  "Perfetto! Hai scelto lo stile **" ++ pyTitle st ++ "** 🎨\n\n" ++
  "Ora dimmi cosa vorresti nel tuo giardino. Puoi scegliere più elementi:\n\n" ++
  "• 🏊 **Piscina** (forma, dimensione)\n" ++
  "• 🌱 **Prato** (inglese, rustico, sintetico)\n" ++
  "• 🌳 **Piante/Alberi** (quali tipi?)\n" ++
  "• 🚶 **Vialetti** (pietra, ghiaia, legno)\n" ++
  "• 🏠 **Pergola/Gazebo**\n" ++
  "• 💡 **Illuminazione**\n" ++
  "• ⛲ **Fontana/Acqua**\n" ++
  "• 🍖 **Area BBQ/Cucina**\n" ++
  "• 🛋️ **Area relax/Sedute**\n\n" ++
  "Descrivi liberamente cosa desideri!\n"

def elaborating_msg : String := "🤔 Sto elaborando la tua richiesta..."

def understood_msg : String := "✅ Ho capito!"

def out_of_scope_msg (items : List Json) : String :=
  "⚠️ **Nota importante:**\n\n" ++
  "Sono un esperto di **garden design e landscaping**. Mi occupo esclusivamente della progettazione di giardini e spazi esterni.\n\n" ++
  "Non posso modificare:\n" ++
  joinSep "\n" (items.map (fun i => "  • " ++ pyStr i)) ++
  "\n\nQueste modifiche richiedono un architetto o un professionista dell\x27edilizia.\n\n" ++
  "Posso però aiutarti a trasformare il tuo giardino! 🌿\n"

def no_elements_msg : String :=
  "Non ho trovato elementi di landscaping da aggiungere nella tua richiesta.\n\n" ++
  "Dimmi cosa vorresti nel tuo giardino: prato, piante, piscina, vialetti, fontane, illuminazione...\n"

def summary_msg (style : String) (els : List Json) (exs : Option (List Json)) : String :=
  let elements_list := joinSep "\n" (els.map (fun el => "  ✅ " ++ pyStr el))
  let excluded_section :=
    match exs with
    | some exList =>
      "\n\n**Non aggiungerò:**\n" ++ joinSep "\n" (exList.map (fun el => "  ❌ " ++ pyStr el))
    | none => ""
  "📋 **Riepilogo:**\n\n**Stile:** " ++ pyTitle style ++ "\n\n**Aggiungerò:**\n" ++
  elements_list ++ excluded_section ++
  "\n\nScrivi **\"ok\"** per generare, oppure dimmi se vuoi modificare qualcosa.\n"

def interp_error_msg (e : String) : String := "❌ Errore nell\x27interpretazione: " ++ e

def no_image_guidance : String :=
  "⚠️ Nessuna immagine caricata. Carica prima una foto del giardino."

def generating_status : String :=
  "🎨 **Generazione rendering in corso...**\n\nSto trasformando il tuo giardino mantenendo la casa e le strutture esistenti..."

def completed_status : String := "✅ **Rendering completato!**"

def result_caption : String :=
  "🌿 **Ecco il rendering del tuo nuovo giardino!**\n\nLa casa e le strutture sono rimaste identiche, ho trasformato solo il landscape."

def post_gen_options : String :=
  "💡 **Cosa puoi fare ora:**\n\n" ++
  "• Chiedi modifiche specifiche (es. *\"aggiungi più fiori\"*, *\"cambia forma piscina\"*)\n" ++
  "• Scrivi **\"rigenera\"** per un nuovo rendering\n" ++
  "• Carica una nuova foto per un altro progetto\n\n" ++
  "Dimmi cosa ne pensi!\n"

def gen_error_msg (e : String) : String :=
  "❌ **Errore nella generazione:**\n\n" ++ e ++ "\n\nRiprova o contatta il supporto."

def refine_status_msg (feedback : String) : String :=
  "🔄 **Modificando il rendering...**\n\n*" ++ feedback ++ "*"

def refine_done_status : String := "✅ **Modifica completata!**"

def refined_caption : String := "🌿 **Ecco il rendering aggiornato:**"

def refine_error_msg (e : String) : String := "❌ Errore nella modifica: " ++ e

/-! ### Lexicons and trigger vocabularies of `handle_chat` -/

/-- `style_keywords` (lines 183–190), in declaration order (Python dicts
preserve insertion order, and the detection loop iterates `.items()` in that
order, breaking on the first hit). -/
def style_keywords : List (String × List String) :=
  [("modern", ["moderno", "minimalista", "contemporaneo", "modern"]),
   ("mediterranean", ["mediterraneo", "italiano", "toscano", "med"]),
   ("tropical", ["tropicale", "esotico", "tropico", "palme"]),
   ("zen", ["zen", "giapponese", "japponese", "orientale"]),
   ("english", ["inglese", "romantico", "cottage", "english"]),
   ("contemporary", ["outdoor living", "fire pit", "cucina esterna", "lounge"])]

/-- Does one lexicon entry hit the (already lower-cased) user text?
(`any(kw in user_lower for kw in keywords)`, line 196). -/
def style_hit (user_lower : String) (entry : String × List String) : Bool :=
  entry.2.any (fun kw => strContains user_lower kw)

/-- The detection loop of lines 194–198: first entry with a keyword hit wins. -/
def detect_style (user_lower : String) : Option String :=
  (style_keywords.find? (style_hit user_lower)).map (fun p => p.1)

/-- `generate_triggers` (line 302). -/
def generate_triggers : List String :=
  ["genera", "ok", "procedi", "vai", "crea", "rendering", "inizia", "perfetto", "sì", "si"]

/-- The restart trigger words of line 309. -/
def restart_triggers : List String := ["rigenera", "nuovo", "ricomincia"]

/-! ### Handlers of `src/app.py` -/

/-- Python `f"...{x}..."` on an `Optional[str]`: `None` prints as `None`. -/
def pyOptStr : Option String → String
  | some s => s
  | none => "None"

/-- Lines 339–344 of `generate_rendering`: the additional-notes string.  This
runs before the `try:` block, so a `TypeError` raised by the `join` on a
malformed `excluded` value propagates uncaught. -/
def build_additional (style : Option String) (excluded : Json)
    (user_description : String) : Except String String :=
  let base := "Stile " ++ pyOptStr style ++ " con focus su estetica professionale."
  let withExcl :=
    if pyTruthy excluded then
      match pyJoinStrs ", " excluded with
      | Except.error e => Except.error e
      | Except.ok t =>
        Except.ok (base ++ "\n\nIMPORTANTE - NON AGGIUNGERE ASSOLUTAMENTE: " ++ t ++
          ". Il cliente ha esplicitamente richiesto di NON includere questi elementi.")
    else Except.ok base
  match withExcl with
  | Except.error e => Except.error e
  | Except.ok w =>
    if user_description.isEmpty then Except.ok w
    else Except.ok (w ++ "\n\nRichiesta originale del cliente: " ++ user_description)

/-- `generate_rendering` (lines 323–393).  With no uploaded image it emits the
guidance message and returns with the session untouched; otherwise it builds
the directive from the stored session fields (the `get(..., default)` defaults
of lines 333–336 are unreachable because `on_chat_start` sets every key), calls
the image capability, and on success stores state `GENERATED` and shows the
result; any exception inside the `try` is caught and surfaced as an error
message with the session untouched. -/
def generate_rendering (sess : Session) (svc : ServiceState) (ext : Ext) :
    Except String (Session × ServiceState × List Action) :=
  match sess.uploaded_image with
  | none => Except.ok (sess, svc, [Action.msg no_image_guidance])
  | some image_data =>
    match build_additional sess.style sess.excluded sess.user_description with
    | Except.error e => Except.error e
    | Except.ok additional =>
      let acts0 := [Action.msg generating_status]
      match build_render_call image_data sess.style sess.elements
              (some ["alberi esistenti da preservare"])
              "golden hour, tardo pomeriggio" additional with
      | Except.error e => Except.ok (sess, svc, acts0 ++ [Action.msg (gen_error_msg e)])
      | Except.ok d =>
        match run_render svc d ext.gen_response with
        | Except.ok (svc', data) =>
          Except.ok ({ sess with state := SessionState.GENERATED }, svc',
            acts0 ++ [Action.invokeImageGen d, Action.statusUpdate completed_status,
                      Action.showImage result_caption data, Action.msg post_gen_options])
        | Except.error e =>
          Except.ok (sess, svc,
            acts0 ++ [Action.invokeImageGen d, Action.msg (gen_error_msg e)])

/-- The `COLLECTING_ELEMENTS` block of `handle_chat` (lines 225–299).
`user_description` is stored first; everything from the interpreter call on
sits inside `try: … except Exception`, so any raise there is converted into
the error message, keeping whatever session keys were already set — in
particular `elements`/`excluded` are stored *before* the empty-elements check
and before any formatting that may raise. -/
def collecting_elements_step (sess : Session) (svc : ServiceState) (msg : String)
    (ext : Ext) : Except String (Session × ServiceState × List Action) :=
  let sess1 := { sess with user_description := msg }
  let style := sess1.style
  let acts0 := [Action.msg elaborating_msg]
  match ext.interpret_response with
  | Except.error e => Except.ok (sess1, svc, acts0 ++ [Action.msg (interp_error_msg e)])
  | Except.ok resp_text =>
    match interpret_user_request msg resp_text ext.loads with
    | Json.obj fs =>
      let detected := obj_get fs "elements" (Json.arr [])
      let excludedv := obj_get fs "excluded" (Json.arr [])
      let out_of_scope := obj_get fs "out_of_scope" (Json.arr [])
      let sess2 := { sess1 with elements := detected, excluded := excludedv }
      let acts1 := acts0 ++ [Action.statusUpdate understood_msg]
      match (if pyTruthy out_of_scope then (pyIter out_of_scope).map some
             else Except.ok none) with
      | Except.error e => Except.ok (sess2, svc, acts1 ++ [Action.msg (interp_error_msg e)])
      | Except.ok osItems =>
        let acts2 := acts1 ++
          (match osItems with
           | some items => [Action.msg (out_of_scope_msg items)]
           | none => [])
        if pyTruthy detected = false then
          Except.ok (sess2, svc, acts2 ++ [Action.msg no_elements_msg])
        else
          match pyIter detected with
          | Except.error e => Except.ok (sess2, svc, acts2 ++ [Action.msg (interp_error_msg e)])
          | Except.ok els =>
            match (if pyTruthy excludedv then (pyIter excludedv).map some
                   else Except.ok none) with
            | Except.error e =>
              Except.ok (sess2, svc, acts2 ++ [Action.msg (interp_error_msg e)])
            | Except.ok exs =>
              match style with
              | none =>
                -- `style.title()` on a stored Python `None` raises AttributeError
                Except.ok (sess2, svc, acts2 ++
                  [Action.msg (interp_error_msg "AttributeError: NoneType has no attribute title")])
              | some st =>
                Except.ok ({ sess2 with state := SessionState.READY_TO_GENERATE }, svc,
                  acts2 ++ [Action.msg (summary_msg st els exs)])
    | _ =>
      -- `interpretation.get(...)` on a non-dict value raises AttributeError,
      -- caught by the `except Exception` of line 297
      Except.ok (sess1, svc, acts0 ++
        [Action.msg (interp_error_msg "AttributeError: object has no attribute get")])

/-- `refine_current_rendering` (lines 396–421). -/
def refine_step (sess : Session) (svc : ServiceState) (feedback : String)
    (ext : Ext) : Except String (Session × ServiceState × List Action) :=
  let acts0 := [Action.msg (refine_status_msg feedback)]
  match refine_rendering svc feedback ext.refine_response with
  | Except.ok (svc', data) =>
    Except.ok (sess, svc', acts0 ++
      [Action.statusUpdate refine_done_status, Action.showImage refined_caption data])
  | Except.error e => Except.ok (sess, svc, acts0 ++ [Action.msg (refine_error_msg e)])

/-- The catch-all chat of lines 317–320: `service.chat(user_message,
image_data if state == WAITING_IMAGE else None)`.  A raise from the model
call propagates uncaught. -/
def chat_step (sess : Session) (svc : ServiceState) (msg : String) (ext : Ext) :
    Except String (Session × ServiceState × List Action) :=
  let image_data := if sess.state == SessionState.WAITING_IMAGE then sess.uploaded_image else none
  match ext.chat_response with
  | Except.error e => Except.error e
  | Except.ok resp =>
    Except.ok (sess, service_chat svc msg image_data resp, [Action.msg resp])

/-- `handle_chat` (lines 176–320): the style-collection block falls through to
the rest of the chain when no style keyword matches; the element-collection
block always returns; `READY_TO_GENERATE` plus a trigger word, or `GENERATED`
plus a restart word, dispatch to `generate_rendering`; other `GENERATED` text
goes to refinement; everything else is generic chat. -/
def handle_chat (sess : Session) (svc : ServiceState) (msg : String) (ext : Ext) :
    Except String (Session × ServiceState × List Action) :=
  let user_lower := pyLower msg
  match (if sess.state == SessionState.COLLECTING_STYLE then detect_style user_lower
         else none) with
  | some detected =>
    Except.ok ({ sess with style := some detected,
                           state := SessionState.COLLECTING_ELEMENTS }, svc,
      [Action.msg (style_chosen_msg detected)])
  | none =>
    if sess.state == SessionState.COLLECTING_ELEMENTS then
      collecting_elements_step sess svc msg ext
    else if sess.state == SessionState.READY_TO_GENERATE
            && generate_triggers.any (fun t => strContains user_lower t) then
      generate_rendering sess svc ext
    else if sess.state == SessionState.GENERATED then
      if restart_triggers.any (fun t => strContains user_lower t) then
        generate_rendering sess svc ext
      else
        refine_step sess svc msg ext
    else
      chat_step sess svc msg ext

/-- `on_message` (lines 106–136) for a message that carries no image
attachment: in `WAITING_IMAGE` the user is told to upload a photo and nothing
else happens; otherwise the message goes to `handle_chat`. -/
def on_message_no_attachment (sess : Session) (svc : ServiceState) (msg : String)
    (ext : Ext) : Except String (Session × ServiceState × List Action) :=
  if sess.state == SessionState.WAITING_IMAGE then
    Except.ok (sess, svc, [Action.msg upload_prompt_msg])
  else handle_chat sess svc msg ext

/-- The session as initialised by `on_chat_start` (lines 76–103): all keys
set, final state `WAITING_IMAGE`. -/
def init_session : Session :=
  { state := SessionState.WAITING_IMAGE, uploaded_image := none, style := none,
    elements := Json.arr [], excluded := Json.arr [], user_description := "",
    preserve := [], photo_analysis := none }

/-! ### The process with two concurrent sessions

`get_service()` (lines 32–40 of `src/app.py`) lazily constructs ONE
`GeminiImageService` held in the module-global `gemini_service`, and every
session handler calls it, so all sessions share the same `ServiceState`.
The Chainlit `cl.user_session` store, by contrast, is keyed per session. -/

structure World where
  service : ServiceState
  sessA : Session
  sessB : Session

/-- `on_chat_start` running for session B: `get_service()` returns the shared
singleton and `service.reset_session()` clears it (lines 62–103); session B's
own Chainlit keys are initialised. -/
def on_chat_start_step (w : World) : World :=
  { w with service := reset_session w.service, sessB := init_session }

/-- A text message of session B being handled: only B's session and the shared
service are updated (on an uncaught exception the turn is aborted with the
world as-is; no claim observes that path). -/
def stepB_message (w : World) (msg : String) (ext : Ext) : World :=
  match handle_chat w.sessB w.service msg ext with
  | Except.ok (sB, svc', _) => { w with sessB := sB, service := svc' }
  | Except.error _ => w

/-! ### Projection helpers used by the theorems -/

/-- The Python list underlying a `Json` array (else the empty list). -/
def elemsOf : Json → List Json
  | Json.arr xs => xs
  | _ => []

/-- Disjointness of two `Json` lists, element-wise. -/
def json_disjoint (a b : Json) : Prop :=
  ∀ x ∈ elemsOf a, x ∉ elemsOf b

/-- The session component of a normally-completed handler run. -/
def result_session (r : Except String (Session × ServiceState × List Action)) :
    Option Session :=
  match r with
  | Except.ok (s, _, _) => some s
  | Except.error _ => none

/-- Does a normally-completed handler run invoke the image-generation
capability? -/
def invokes_image_gen (r : Except String (Session × ServiceState × List Action)) : Bool :=
  match r with
  | Except.ok (_, _, acts) =>
    acts.any (fun a => match a with
      | Action.invokeImageGen _ => true
      | _ => false)
  | Except.error _ => false

/-! ### Concrete fixtures used by witnesses and counterexamples -/

/-- A fresh service state (as after `reset_session`). -/
def demo_svc : ServiceState :=
  { chat_history := [], current_image := none, original_image := none }

/-- An oracle where every external call fails and every parse fails; handlers
that never reach an external call ignore it. -/
def demo_ext : Ext :=
  { interpret_response := Except.error "network error",
    loads := fun _ => Except.error (),
    gen_response := Except.error "network error",
    refine_response := Except.error "network error",
    chat_response := Except.ok "ciao" }

/-! ### C1 -/

/-- C1: `generate_rendering` invokes the external image-generation capability
only when the session's uploaded image is set; with no uploaded image it emits
the guidance message and leaves the session (in particular its state)
unchanged, and a `"genera"`-style message arriving with no image uploaded
(state `WAITING_IMAGE`) is answered with the upload prompt, again leaving the
session unchanged. -/
theorem C1_generation_requires_uploaded_image (sess : Session) (svc : ServiceState)
    (ext : Ext) :
    (sess.uploaded_image = none →
      generate_rendering sess svc ext = Except.ok (sess, svc, [Action.msg no_image_guidance])) ∧
    (sess.uploaded_image = none → sess.state = SessionState.WAITING_IMAGE →
      ∀ msg, on_message_no_attachment sess svc msg ext =
        Except.ok (sess, svc, [Action.msg upload_prompt_msg])) ∧
    (∀ sess' svc' acts d, generate_rendering sess svc ext = Except.ok (sess', svc', acts) →
      Action.invokeImageGen d ∈ acts → sess.uploaded_image ≠ none) := by
  refine ⟨?_, ?_, ?_⟩
  · intro h
    simp [generate_rendering, h]
  · intro _ hst msg
    simp [on_message_no_attachment, hst]
  · intro sess' svc' acts d hok hmem
    cases hui : sess.uploaded_image with
    | none =>
      rw [generate_rendering, hui] at hok
      simp only [Except.ok.injEq, Prod.mk.injEq] at hok
      obtain ⟨-, -, hacts⟩ := hok
      subst hacts
      simp at hmem
    | some img => simp

/-- Witness for C1: scenario C — fresh session, no image, user sends
`"genera"`. -/
theorem C1_witness :
    generate_rendering init_session demo_svc demo_ext =
      Except.ok (init_session, demo_svc, [Action.msg no_image_guidance]) ∧
    on_message_no_attachment init_session demo_svc "genera" demo_ext =
      Except.ok (init_session, demo_svc, [Action.msg upload_prompt_msg]) :=
  ⟨(C1_generation_requires_uploaded_image init_session demo_svc demo_ext).1 rfl,
   (C1_generation_requires_uploaded_image init_session demo_svc demo_ext).2.1 rfl rfl "genera"⟩

/-! ### C3 -/

/-- C3 (amended): the degraded fallback of `interpret_user_request` fires
exactly when `json.loads` fails on the fence-stripped response; it then yields
the fallback payload (`elements = [raw user text]`, `excluded = []`) and the
function does not raise.  A payload that parses as JSON — of whatever shape —
is returned unchanged instead. -/
theorem C3_fallback_on_parse_failure (msg resp : String)
    (loads : String → Except Unit Json) :
    (loads (strip_markdown resp) = Except.error () →
      interpret_user_request msg resp loads = fallback_payload msg) ∧
    (∀ j, loads (strip_markdown resp) = Except.ok j →
      interpret_user_request msg resp loads = j) := by
  constructor
  · intro h
    simp [interpret_user_request, h]
  · intro j h
    simp [interpret_user_request, h]

/-- A parse oracle that always fails (models `json.loads` on non-JSON text). -/
def loads_fail : String → Except Unit Json := fun _ => Except.error ()

/-- Witness for C3: an unparsable response yields the fallback payload. -/
theorem C3_witness :
    interpret_user_request "voglio un prato" "$$$ not json" loads_fail =
      fallback_payload "voglio un prato" :=
  (C3_fallback_on_parse_failure "voglio un prato" "$$$ not json" loads_fail).1 rfl

/-- A parse oracle agreeing with `json.loads` on the one input exercised:
`json.loads("42")` succeeds with the integer `42`. -/
def loads_wrongshape : String → Except Unit Json :=
  fun s => if s == "42" then Except.ok (Json.num 42) else Except.error ()

/-- C3 counterexample: the interpreter response `"42"` is valid JSON but not
the required shape, yet `interpret_user_request` returns it unchanged — it
does NOT return the claimed fallback with `elements = [raw user text]`. -/
theorem C3_counterexample :
    interpret_user_request "una piscina" "42" loads_wrongshape = Json.num 42 ∧
    Json.num 42 ≠ fallback_payload "una piscina" := by
  constructor
  · rfl
  · intro h
    simp [fallback_payload] at h

/-! ### C9 -/

/-- C9: every directive built by the rendering request builder carries the
fixed baseline preserve-list (main house, windows and doors, roof,
foundations) followed by the session-specific preserve items — hence it is
never empty — and resolves the style through the six-entry
style-to-description table, any unknown tag falling back to the `"modern"`
description. -/
theorem C9_preserve_baseline_and_style_table :
    (∀ (img : List Nat) (style : Option String) (mods : Json)
       (pres : Option (List String)) (lighting notes : String) (d : Directive),
       build_render_call img style mods pres lighting notes = Except.ok d →
       d.preserve_list = base_preserve_list ++ pres.getD [] ∧
       d.preserve_list ≠ [] ∧ d.style_desc = style_desc_get style) ∧
    (style_descriptions.map Prod.fst =
      ["modern", "mediterranean", "tropical", "zen", "english", "contemporary"]) ∧
    (∀ s : String, style_descriptions.find? (fun p => p.1 == s) = none →
      style_desc_get (some s) = modern_description) ∧
    (∀ (s : String) (p : String × String),
      style_descriptions.find? (fun q => q.1 == s) = some p →
      style_desc_get (some s) = p.2) := by
  refine ⟨?_, rfl, ?_, ?_⟩
  · intro img style mods pres lighting notes d h
    simp only [build_render_call] at h
    cases hmt : (if pyTruthy mods then pyJoinStrs "\n- " mods
                 else Except.ok "Miglioramento generale del landscape") with
    | error e => rw [hmt] at h; exact absurd h (by simp)
    | ok mt =>
      rw [hmt] at h
      simp only [Except.ok.injEq] at h
      subst h
      refine ⟨?_, ?_, rfl⟩
      · cases pres <;> simp [base_preserve_list]
      · cases pres <;> simp [base_preserve_list]
  · intro s h
    simp [style_desc_get, h]
  · intro s p h
    simp [style_desc_get, h]

/-- Witness for C9: a concrete build with one session-specific preserve item
and an unknown style tag. -/
theorem C9_witness :
    (build_render_call [1, 2] (some "rustico") (Json.arr [Json.str "prato"])
        (some ["alberi esistenti da preservare"]) "golden hour" "note" =
      Except.ok
        { image := [1, 2],
          preserve_list := base_preserve_list ++ ["alberi esistenti da preservare"],
          preserve_text := joinSep "\n- " (base_preserve_list ++ ["alberi esistenti da preservare"]),
          style_desc := style_desc_get (some "rustico"),
          modifications_text := "prato", lighting := "golden hour",
          additional_notes := "note" }) ∧
    base_preserve_list ++ ["alberi esistenti da preservare"] ≠ [] ∧
    style_desc_get (some "rustico") = modern_description := by
  have h :=
    (C9_preserve_baseline_and_style_table.1 [1, 2] (some "rustico")
      (Json.arr [Json.str "prato"]) (some ["alberi esistenti da preservare"])
      "golden hour" "note"
      { image := [1, 2],
        preserve_list := base_preserve_list ++ ["alberi esistenti da preservare"],
        preserve_text := joinSep "\n- " (base_preserve_list ++ ["alberi esistenti da preservare"]),
        style_desc := style_desc_get (some "rustico"),
        modifications_text := "prato", lighting := "golden hour",
        additional_notes := "note" } rfl)
  exact ⟨rfl, h.2.1, C9_preserve_baseline_and_style_table.2.2.1 "rustico" rfl⟩

/-! ### C4 -/

/-- C4: the first response part containing inline image data is taken as the
result of an image-generation call and all other parts are ignored; when no
part contains inline image data the call raises, the error is surfaced to the
user, and the session is left unchanged — in particular an initial-render
failure does not advance the state to `GENERATED`. -/
theorem C4_first_image_part_and_failure :
    (∀ (pre post : List Part) (p : Part) (bs : List Nat),
       (∀ q ∈ pre, part_image_data q = none) → part_image_data p = some bs →
       first_inline_image (pre ++ p :: post) = some bs) ∧
    (∀ parts : List Part, (∀ q ∈ parts, part_image_data q = none) →
       first_inline_image parts = none) ∧
    (∀ (svc : ServiceState) (d : Directive) (parts : List Part),
       (∀ q ∈ parts, part_image_data q = none) →
       run_render svc d (Except.ok parts) =
         Except.error "Nessuna immagine generata nella risposta") ∧
    (∀ (sess : Session) (svc : ServiceState) (ext : Ext)
       (sess' : Session) (svc' : ServiceState) (acts : List Action),
       generate_rendering sess svc ext = Except.ok (sess', svc', acts) →
       sess' = sess ∨ sess' = { sess with state := SessionState.GENERATED }) ∧
    (∀ (sess : Session) (svc : ServiceState) (ext : Ext) (img : List Nat)
       (parts : List Part) (additional : String) (d : Directive)
       (sess' : Session) (svc' : ServiceState) (acts : List Action),
       sess.uploaded_image = some img →
       build_additional sess.style sess.excluded sess.user_description =
         Except.ok additional →
       build_render_call img sess.style sess.elements
         (some ["alberi esistenti da preservare"]) "golden hour, tardo pomeriggio"
         additional = Except.ok d →
       ext.gen_response = Except.ok parts →
       (∀ q ∈ parts, part_image_data q = none) →
       generate_rendering sess svc ext = Except.ok (sess', svc', acts) →
       sess' = sess ∧
       Action.msg (gen_error_msg "Nessuna immagine generata nella risposta") ∈ acts) := by
  have hfirst : ∀ parts : List Part, (∀ q ∈ parts, part_image_data q = none) →
      first_inline_image parts = none := by
    intro parts h
    induction parts with
    | nil => rfl
    | cons q rest ih =>
      have hq : part_image_data q = none := h q (by simp)
      simp [first_inline_image, hq]
      exact ih (fun r hr => h r (by simp [hr]))
  have hrun : ∀ (svc : ServiceState) (d : Directive) (parts : List Part),
      (∀ q ∈ parts, part_image_data q = none) →
      run_render svc d (Except.ok parts) =
        Except.error "Nessuna immagine generata nella risposta" := by
    intro svc d parts h
    simp [run_render, hfirst parts h]
  have hframe : ∀ (sess : Session) (svc : ServiceState) (ext : Ext)
      (sess' : Session) (svc' : ServiceState) (acts : List Action),
      generate_rendering sess svc ext = Except.ok (sess', svc', acts) →
      sess' = sess ∨ sess' = { sess with state := SessionState.GENERATED } := by
    intro sess svc ext sess' svc' acts h
    rw [generate_rendering.eq_def] at h
    split at h
    · simp only [Except.ok.injEq, Prod.mk.injEq] at h
      exact Or.inl h.1.symm
    · split at h
      · exact absurd h (by simp)
      · split at h
        · simp only [Except.ok.injEq, Prod.mk.injEq] at h
          exact Or.inl h.1.symm
        · split at h
          · simp only [Except.ok.injEq, Prod.mk.injEq] at h
            exact Or.inr h.1.symm
          · simp only [Except.ok.injEq, Prod.mk.injEq] at h
            exact Or.inl h.1.symm
  refine ⟨?_, hfirst, hrun, hframe, ?_⟩
  · intro pre post p bs hpre hp
    induction pre with
    | nil => simp [first_inline_image, hp]
    | cons q rest ih =>
      have hq : part_image_data q = none := hpre q (by simp)
      simp [first_inline_image, hq]
      exact ih (fun r hr => hpre r (by simp [hr]))
  · intro sess svc ext img parts additional d sess' svc' acts hui hadd hbrc hresp hparts h
    rw [generate_rendering.eq_def, hui] at h
    simp only [] at h
    rw [hadd] at h
    simp only [] at h
    rw [hbrc] at h
    simp only [] at h
    rw [run_render.eq_def, hresp] at h
    simp only [] at h
    rw [hfirst parts hparts] at h
    simp only [Except.ok.injEq, Prod.mk.injEq] at h
    obtain ⟨h1, -, h3⟩ := h
    subst h3
    exact ⟨h1.symm, by simp⟩

/-- A response part with no inline data (e.g. a text part). -/
def text_part : Part := { inline_data := none }

/-- A response part carrying inline image bytes. -/
def image_part : Part := { inline_data := some { data := some [9, 9, 9] } }

/-- A concrete directive for exercising `run_render` directly. -/
def demo_directive : Directive :=
  { image := [1], preserve_list := base_preserve_list,
    preserve_text := joinSep "\n- " base_preserve_list,
    style_desc := modern_description, modifications_text := "prato",
    lighting := "golden hour, tardo pomeriggio", additional_notes := "" }

/-- Witness for C4: a text-only part is skipped in favour of the image part
behind it, and a response with no image part makes the call fail with the
`ValueError` message. -/
theorem C4_witness :
    first_inline_image [text_part, image_part] = some [9, 9, 9] ∧
    run_render demo_svc demo_directive (Except.ok [text_part]) =
      Except.error "Nessuna immagine generata nella risposta" :=
  ⟨C4_first_image_part_and_failure.1 [text_part] [] image_part [9, 9, 9]
      (by intro q hq; simp at hq; subst hq; rfl) rfl,
   C4_first_image_part_and_failure.2.2.1 demo_svc demo_directive [text_part]
      (by intro q hq; simp at hq; subst hq; rfl)⟩

/-! ### Shared list lemma -/

/-- `find?` returns the first entry satisfying the predicate: if everything
before `e` fails and `e` hits, `e` is returned. -/
theorem find?_append_first {α : Type} (p : α → Bool) (pre : List α) (e : α)
    (post : List α) (hpre : ∀ x ∈ pre, p x = false) (he : p e = true) :
    (pre ++ e :: post).find? p = some e := by
  induction pre with
  | nil => exact List.find?_cons_of_pos _ he
  | cons a as ih =>
    have ha : p a = false := hpre a (List.mem_cons_self a as)
    rw [List.cons_append, List.find?_cons_of_neg _ (by simp [ha])]
    exact ih (fun x hx => hpre x (List.mem_cons_of_mem a hx))

/-- `chat_step` never touches the session. -/
theorem chat_step_session (sess : Session) (svc : ServiceState) (msg : String)
    (ext : Ext) (s' : Session) (v' : ServiceState) (a : List Action)
    (h : chat_step sess svc msg ext = Except.ok (s', v', a)) : s' = sess := by
  rw [chat_step.eq_def] at h
  cases hcr : ext.chat_response with
  | error e => rw [hcr] at h; exact absurd h (by simp)
  | ok resp =>
    rw [hcr] at h
    simp only [] at h
    simp only [Except.ok.injEq, Prod.mk.injEq] at h
    exact h.1.symm

/-! ### C6 -/

/-- C6: in state `COLLECTING_STYLE` the lower-cased text is scanned against
the style lexicon in declaration order and the first entry with a keyword hit
wins; a match stores the style and moves the session to `COLLECTING_ELEMENTS`;
no match falls through to the generic chat response, which leaves the session
(hence its state) unchanged. -/
theorem C6_collecting_style (sess : Session) (svc : ServiceState) (msg : String)
    (ext : Ext) (h : sess.state = SessionState.COLLECTING_STYLE) :
    (∀ st, detect_style (pyLower msg) = some st →
      handle_chat sess svc msg ext =
        Except.ok ({ sess with
                       style := some st,
                       state := SessionState.COLLECTING_ELEMENTS }, svc,
          [Action.msg (style_chosen_msg st)])) ∧
    (detect_style (pyLower msg) = none →
      handle_chat sess svc msg ext = chat_step sess svc msg ext ∧
      ∀ s' v' a, chat_step sess svc msg ext = Except.ok (s', v', a) → s' = sess) ∧
    (∀ (pre : List (String × List String)) (e : String × List String)
       (post : List (String × List String)),
      style_keywords = pre ++ e :: post →
      (∀ e2 ∈ pre, style_hit (pyLower msg) e2 = false) →
      style_hit (pyLower msg) e = true →
      detect_style (pyLower msg) = some e.1) := by
  refine ⟨?_, ?_, ?_⟩
  · intro st hst
    rw [handle_chat.eq_def]
    simp [h, hst]
  · intro hst
    refine ⟨?_, fun s' v' a hc => chat_step_session sess svc msg ext s' v' a hc⟩
    rw [handle_chat.eq_def]
    simp [h, hst]
  · intro pre e post hsk hpre he
    simp only [detect_style, hsk, find?_append_first _ pre e post hpre he]
    rfl

/-- A session sitting in `COLLECTING_STYLE` (photo uploaded and analysed). -/
def style_sess : Session :=
  { state := SessionState.COLLECTING_STYLE, uploaded_image := some [1, 2, 3],
    style := none, elements := Json.arr [], excluded := Json.arr [],
    user_description := "", preserve := [], photo_analysis := some "analisi" }

/-- Witness for C6: `"Vorrei un giardino zen"` selects the `zen` style and
advances the state. -/
theorem C6_witness :
    handle_chat style_sess demo_svc "Vorrei un giardino zen" demo_ext =
      Except.ok ({ style_sess with
                     style := some "zen",
                     state := SessionState.COLLECTING_ELEMENTS }, demo_svc,
        [Action.msg (style_chosen_msg "zen")]) :=
  (C6_collecting_style style_sess demo_svc "Vorrei un giardino zen" demo_ext
    rfl).1 "zen" (by decide)

/-! ### C7 -/

/-- C7: in state `GENERATED`, a text containing a restart trigger
(`rigenera` / `nuovo` / `ricomincia`) re-dispatches to `generate_rendering`,
which reads the currently stored style and elements; on success the state
remains `GENERATED` and the service's current image is replaced by the fresh
result; any other text is dispatched to the refinement step. -/
theorem C7_generated_state (sess : Session) (svc : ServiceState) (msg : String)
    (ext : Ext) (h : sess.state = SessionState.GENERATED) :
    (restart_triggers.any (fun t => strContains (pyLower msg) t) = true →
      handle_chat sess svc msg ext = generate_rendering sess svc ext) ∧
    (restart_triggers.any (fun t => strContains (pyLower msg) t) = false →
      handle_chat sess svc msg ext = refine_step sess svc msg ext) ∧
    restart_triggers = ["rigenera", "nuovo", "ricomincia"] ∧
    (∀ (img : List Nat) (additional : String) (d : Directive) (parts : List Part)
       (bs : List Nat) (sess' : Session) (svc' : ServiceState) (acts : List Action),
      sess.uploaded_image = some img →
      build_additional sess.style sess.excluded sess.user_description =
        Except.ok additional →
      build_render_call img sess.style sess.elements
        (some ["alberi esistenti da preservare"]) "golden hour, tardo pomeriggio"
        additional = Except.ok d →
      ext.gen_response = Except.ok parts →
      first_inline_image parts = some bs →
      generate_rendering sess svc ext = Except.ok (sess', svc', acts) →
      sess'.state = SessionState.GENERATED ∧ svc'.current_image = some bs ∧
      Action.invokeImageGen d ∈ acts) := by
  refine ⟨?_, ?_, rfl, ?_⟩
  · intro ht
    rw [handle_chat.eq_def]
    simp [h, ht]
  · intro ht
    rw [handle_chat.eq_def]
    simp [h, ht]
  · intro img additional d parts bs sess' svc' acts hui hadd hbrc hresp hfi hgen
    rw [generate_rendering.eq_def, hui] at hgen
    simp only [] at hgen
    rw [hadd] at hgen
    simp only [] at hgen
    rw [hbrc] at hgen
    simp only [] at hgen
    rw [run_render.eq_def, hresp] at hgen
    simp only [] at hgen
    rw [hfi] at hgen
    simp only [Except.ok.injEq, Prod.mk.injEq] at hgen
    obtain ⟨h1, h2, h3⟩ := hgen
    subst h1 h2 h3
    exact ⟨rfl, rfl, by simp⟩

/-- A session sitting in `GENERATED` after a successful render. -/
def gen_sess : Session :=
  { state := SessionState.GENERATED, uploaded_image := some [1, 2, 3],
    style := some "modern", elements := Json.arr [Json.str "prato"],
    excluded := Json.arr [], user_description := "", preserve := [],
    photo_analysis := some "analisi" }

/-- An oracle whose image-generation call succeeds with one text part and one
image part. -/
def gen_ext : Ext :=
  { interpret_response := Except.error "network error",
    loads := fun _ => Except.error (),
    gen_response := Except.ok [text_part, image_part],
    refine_response := Except.error "network error",
    chat_response := Except.ok "ciao" }

/-- Witness for C7: `"rigenera"` in state `GENERATED` re-invokes generation;
the run succeeds, the state stays `GENERATED` and the current image is the
freshly extracted one. -/
theorem C7_witness :
    handle_chat gen_sess demo_svc "rigenera" gen_ext =
      generate_rendering gen_sess demo_svc gen_ext ∧
    invokes_image_gen (handle_chat gen_sess demo_svc "rigenera" gen_ext) = true ∧
    (result_session (handle_chat gen_sess demo_svc "rigenera" gen_ext)).map
        Session.state = some SessionState.GENERATED :=
  ⟨(C7_generated_state gen_sess demo_svc "rigenera" gen_ext rfl).1 (by decide),
   rfl, rfl⟩

/-! ### C8 -/

/-- The nine-word trigger vocabulary exactly as the claim enumerates it. -/
def claimed_generate_triggers : List String :=
  ["genera", "ok", "procedi", "vai", "crea", "rendering", "inizia", "perfetto", "sì"]

/-- A session sitting in `READY_TO_GENERATE`. -/
def ready_sess : Session :=
  { state := SessionState.READY_TO_GENERATE, uploaded_image := some [1, 2, 3],
    style := some "modern", elements := Json.arr [Json.str "prato"],
    excluded := Json.arr [], user_description := "", preserve := [],
    photo_analysis := some "analisi" }

/-- C8 counterexample: the user text `"si"` contains none of the nine trigger
words the claim enumerates, yet in `READY_TO_GENERATE` it dispatches to
`generate_rendering` and the image-generation capability is invoked — the
code's vocabulary has a tenth entry `"si"`. -/
theorem C8_counterexample :
    claimed_generate_triggers.all (fun t => !(strContains (pyLower "si") t)) = true ∧
    handle_chat ready_sess demo_svc "si" gen_ext =
      generate_rendering ready_sess demo_svc gen_ext ∧
    invokes_image_gen (handle_chat ready_sess demo_svc "si" gen_ext) = true := by
  exact ⟨by decide, rfl, rfl⟩

/-- C8 (amended): in `READY_TO_GENERATE` a rendering call is dispatched
exactly when the lower-cased user text contains one of the TEN code triggers
(`genera`, `ok`, `procedi`, `vai`, `crea`, `rendering`, `inizia`, `perfetto`,
`sì`, and also the unaccented `si`); with none of them the message is generic
chat and no image-generation call happens. -/
theorem C8_ready_trigger_vocabulary (sess : Session) (svc : ServiceState)
    (msg : String) (ext : Ext) (h : sess.state = SessionState.READY_TO_GENERATE) :
    (generate_triggers.any (fun t => strContains (pyLower msg) t) = true →
      handle_chat sess svc msg ext = generate_rendering sess svc ext) ∧
    (generate_triggers.any (fun t => strContains (pyLower msg) t) = false →
      handle_chat sess svc msg ext = chat_step sess svc msg ext ∧
      invokes_image_gen (handle_chat sess svc msg ext) = false) ∧
    generate_triggers = ["genera", "ok", "procedi", "vai", "crea", "rendering",
                         "inizia", "perfetto", "sì", "si"] := by
  refine ⟨?_, ?_, rfl⟩
  · intro ht
    rw [handle_chat.eq_def]
    simp [h, ht]
  · intro ht
    have hch : handle_chat sess svc msg ext = chat_step sess svc msg ext := by
      rw [handle_chat.eq_def]
      simp [h, ht]
    refine ⟨hch, ?_⟩
    rw [hch, chat_step.eq_def]
    cases hcr : ext.chat_response with
    | error e => simp [invokes_image_gen]
    | ok resp => simp [invokes_image_gen]

/-- Witness for C8: `"procedi"` triggers in `READY_TO_GENERATE`; `"magari"`
does not and produces no image-generation call. -/
theorem C8_witness :
    handle_chat ready_sess demo_svc "procedi" gen_ext =
      generate_rendering ready_sess demo_svc gen_ext ∧
    invokes_image_gen (handle_chat ready_sess demo_svc "magari" demo_ext) = false :=
  ⟨(C8_ready_trigger_vocabulary ready_sess demo_svc "procedi" gen_ext rfl).1 (by decide),
   ((C8_ready_trigger_vocabulary ready_sess demo_svc "magari" demo_ext rfl).2.1
     (by decide)).2⟩

/-! ### C2 -/

/-- Whenever the interpreter payload parses to a JSON object, every normal
completion of the element-collection step stores exactly that payload's
`elements` and `excluded` entries (defaulted to empty lists) and the raw
message as `user_description`. -/
theorem collecting_elements_session (sess : Session) (svc : ServiceState)
    (msg : String) (ext : Ext) (resp : String) (fs : List (String × Json))
    (sess' : Session) (svc' : ServiceState) (acts : List Action)
    (hresp : ext.interpret_response = Except.ok resp)
    (hobj : interpret_user_request msg resp ext.loads = Json.obj fs)
    (hrun : collecting_elements_step sess svc msg ext = Except.ok (sess', svc', acts)) :
    sess'.elements = obj_get fs "elements" (Json.arr []) ∧
    sess'.excluded = obj_get fs "excluded" (Json.arr []) ∧
    sess'.user_description = msg := by
  rw [collecting_elements_step.eq_def, hresp] at hrun
  simp only [] at hrun
  rw [hobj] at hrun
  simp only [] at hrun
  split at hrun
  all_goals try split at hrun
  all_goals try split at hrun
  all_goals try split at hrun
  all_goals try split at hrun
  all_goals
    simp only [Except.ok.injEq, Prod.mk.injEq] at hrun
  all_goals
    obtain ⟨h1, -, -⟩ := hrun
  all_goals subst h1
  all_goals exact ⟨rfl, rfl, rfl⟩

/-- C2 (amended): after an Intent Interpreter call the session's lists are
exactly the parsed payload's `elements`/`excluded` entries, passed through
without any disjointness enforcement; hence they are disjoint whenever the
payload's lists are, and on the parse-failure fallback they are
`[raw text]` / `[]`, which are disjoint.  (A payload repeating an item in both
lists is stored as-is — see the counterexample.) -/
theorem C2_lists_passed_through (sess : Session) (svc : ServiceState)
    (msg : String) (ext : Ext) (resp : String) (fs : List (String × Json))
    (h : sess.state = SessionState.COLLECTING_ELEMENTS)
    (hresp : ext.interpret_response = Except.ok resp)
    (hobj : interpret_user_request msg resp ext.loads = Json.obj fs) :
    ∀ sess' svc' acts, handle_chat sess svc msg ext = Except.ok (sess', svc', acts) →
      sess'.elements = obj_get fs "elements" (Json.arr []) ∧
      sess'.excluded = obj_get fs "excluded" (Json.arr []) ∧
      (json_disjoint (obj_get fs "elements" (Json.arr []))
          (obj_get fs "excluded" (Json.arr [])) →
        json_disjoint sess'.elements sess'.excluded) ∧
      (ext.loads (strip_markdown resp) = Except.error () →
        sess'.elements = Json.arr [Json.str msg] ∧ sess'.excluded = Json.arr [] ∧
        json_disjoint sess'.elements sess'.excluded) := by
  intro sess' svc' acts hrun
  have hhc : handle_chat sess svc msg ext = collecting_elements_step sess svc msg ext := by
    rw [handle_chat.eq_def]
    simp [h]
  rw [hhc] at hrun
  obtain ⟨e1, e2, -⟩ :=
    collecting_elements_session sess svc msg ext resp fs sess' svc' acts hresp hobj hrun
  refine ⟨e1, e2, ?_, ?_⟩
  · intro hd
    rw [e1, e2]
    exact hd
  · intro hl
    have hfb : Json.obj fs = fallback_payload msg := by
      rw [← hobj]
      simp [interpret_user_request, hl]
    rw [fallback_payload] at hfb
    injection hfb with hfs
    subst hfs
    refine ⟨?_, ?_, ?_⟩
    · rw [e1]; rfl
    · rw [e2]; rfl
    · rw [e1, e2]
      intro x hx
      simp [elemsOf, obj_get]

/-- A session sitting in `COLLECTING_ELEMENTS` (style already chosen). -/
def collecting_sess : Session :=
  { state := SessionState.COLLECTING_ELEMENTS, uploaded_image := some [1, 2, 3],
    style := some "modern", elements := Json.arr [], excluded := Json.arr [],
    user_description := "", preserve := [], photo_analysis := some "analisi" }

/-- The field list of an interpreter payload naming `"fontana"` on both
sides. -/
def overlap_fields : List (String × Json) :=
  [("elements", Json.arr [Json.str "fontana"]),
   ("excluded", Json.arr [Json.str "fontana"]),
   ("summary", Json.str "fontana")]

/-- The response text whose `json.loads` value is `overlap_fields`. -/
def overlap_text : String :=
  "\x7b\"elements\": [\"fontana\"], \"excluded\": [\"fontana\"], \"summary\": \"fontana\"\x7d"

/-- A parse oracle agreeing with `json.loads` on the one input exercised. -/
def loads_overlap : String → Except Unit Json :=
  fun s => if s == overlap_text then Except.ok (Json.obj overlap_fields)
           else Except.error ()

/-- An oracle whose interpreter call returns the overlapping payload. -/
def overlap_ext : Ext :=
  { interpret_response := Except.ok overlap_text, loads := loads_overlap,
    gen_response := Except.error "network error",
    refine_response := Except.error "network error",
    chat_response := Except.ok "ciao" }

/-- C2 counterexample: an interpreter payload listing `"fontana"` in both
`elements` and `excluded` is stored unchanged, so after the call the two
session lists both contain `"fontana"` — they are not disjoint. -/
theorem C2_counterexample :
    (result_session (handle_chat collecting_sess demo_svc "voglio la fontana"
        overlap_ext)).map (fun s => (s.elements, s.excluded)) =
      some (Json.arr [Json.str "fontana"], Json.arr [Json.str "fontana"]) ∧
    ¬ json_disjoint (Json.arr [Json.str "fontana"]) (Json.arr [Json.str "fontana"]) := by
  constructor
  · rfl
  · intro hd
    exact hd (Json.str "fontana") (by simp [elemsOf]) (by simp [elemsOf])

/-- An oracle whose interpreter response is unparsable text. -/
def fb_ext : Ext :=
  { interpret_response := Except.ok "mah", loads := loads_fail,
    gen_response := Except.error "network error",
    refine_response := Except.error "network error",
    chat_response := Except.ok "ciao" }

/-- The fallback payload's field list for the message `"solo prato"`. -/
def fb_fields : List (String × Json) :=
  [("elements", Json.arr [Json.str "solo prato"]), ("excluded", Json.arr []),
   ("summary", Json.str (strTake 100 "solo prato"))]

/-- The session produced by the fallback run of the witness. -/
def fb_result : Session :=
  { collecting_sess with
      user_description := "solo prato",
      elements := Json.arr [Json.str "solo prato"],
      excluded := Json.arr [],
      state := SessionState.READY_TO_GENERATE }

/-- The actions produced by the fallback run of the witness. -/
def fb_acts : List Action :=
  [Action.msg elaborating_msg, Action.statusUpdate understood_msg,
   Action.msg (summary_msg "modern" [Json.str "solo prato"] none)]

/-- Witness for C2: on the parse-failure fallback the stored lists are the
payload's (`[raw text]` / `[]`) and they are disjoint. -/
theorem C2_witness :
    fb_result.elements = obj_get fb_fields "elements" (Json.arr []) ∧
    fb_result.excluded = obj_get fb_fields "excluded" (Json.arr []) ∧
    json_disjoint fb_result.elements fb_result.excluded := by
  have h := C2_lists_passed_through collecting_sess demo_svc "solo prato" fb_ext
    "mah" fb_fields rfl rfl rfl fb_result demo_svc fb_acts rfl
  exact ⟨h.1, h.2.1, (h.2.2.2 rfl).2.2⟩

/-! ### C10 -/

/-- C10: in `COLLECTING_ELEMENTS`, when the interpreter payload has an empty
`elements` list the user is re-prompted and the state stays
`COLLECTING_ELEMENTS` — but `user_description`, `elements` and `excluded`
have already been overwritten with the new message's interpretation,
whatever they previously held. -/
theorem C10_fields_overwritten_on_empty_elements (sess : Session)
    (svc : ServiceState) (msg : String) (ext : Ext) (resp : String)
    (fs : List (String × Json)) (os : List Json)
    (h : sess.state = SessionState.COLLECTING_ELEMENTS)
    (hresp : ext.interpret_response = Except.ok resp)
    (hobj : interpret_user_request msg resp ext.loads = Json.obj fs)
    (hempty : obj_get fs "elements" (Json.arr []) = Json.arr [])
    (hos : obj_get fs "out_of_scope" (Json.arr []) = Json.arr os) :
    handle_chat sess svc msg ext = Except.ok
      ({ sess with
           user_description := msg,
           elements := Json.arr [],
           excluded := obj_get fs "excluded" (Json.arr []) }, svc,
        [Action.msg elaborating_msg, Action.statusUpdate understood_msg] ++
          (if os.isEmpty then [] else [Action.msg (out_of_scope_msg os)]) ++
          [Action.msg no_elements_msg]) := by
  have hhc : handle_chat sess svc msg ext = collecting_elements_step sess svc msg ext := by
    rw [handle_chat.eq_def]
    simp [h]
  rw [hhc, collecting_elements_step.eq_def, hresp]
  simp only []
  rw [hobj]
  simp only []
  rw [hempty, hos]
  by_cases hOs : os.isEmpty
  · simp [pyTruthy, hOs, pyIter, Except.map]
  · simp [pyTruthy, hOs, pyIter, Except.map]

/-- The field list of an interpreter payload with no landscaping elements and
one out-of-scope request. -/
def empty_fields : List (String × Json) :=
  [("elements", Json.arr []), ("excluded", Json.arr [Json.str "fontana"]),
   ("out_of_scope", Json.arr [Json.str "abbattere il garage"]),
   ("summary", Json.str "x")]

/-- The response text whose `json.loads` value is `empty_fields`. -/
def empty_text : String :=
  "\x7b\"elements\": [], \"excluded\": [\"fontana\"], \"out_of_scope\": [\"abbattere il garage\"], \"summary\": \"x\"\x7d"

/-- A parse oracle agreeing with `json.loads` on the one input exercised. -/
def loads_empty : String → Except Unit Json :=
  fun s => if s == empty_text then Except.ok (Json.obj empty_fields)
           else Except.error ()

/-- An oracle whose interpreter call returns the empty-elements payload. -/
def empty_ext : Ext :=
  { interpret_response := Except.ok empty_text, loads := loads_empty,
    gen_response := Except.error "network error",
    refine_response := Except.error "network error",
    chat_response := Except.ok "ciao" }

/-- A session that already holds a previous interpretation. -/
def prev_sess : Session :=
  { collecting_sess with
      elements := Json.arr [Json.str "piscina"],
      excluded := Json.arr [Json.str "ghiaia"],
      user_description := "una piscina" }

/-- Witness for C10: the previously stored `elements = ["piscina"]`,
`excluded = ["ghiaia"]`, `user_description = "una piscina"` are all
overwritten even though the new payload has no elements and the state does
not advance. -/
theorem C10_witness :
    handle_chat prev_sess demo_svc "niente fontana" empty_ext = Except.ok
      ({ prev_sess with
           user_description := "niente fontana",
           elements := Json.arr [],
           excluded := Json.arr [Json.str "fontana"] }, demo_svc,
        [Action.msg elaborating_msg, Action.statusUpdate understood_msg] ++
          (if ([Json.str "abbattere il garage"] : List Json).isEmpty then []
           else [Action.msg (out_of_scope_msg [Json.str "abbattere il garage"])]) ++
          [Action.msg no_elements_msg]) :=
  C10_fields_overwritten_on_empty_elements prev_sess demo_svc "niente fontana"
    empty_ext empty_text empty_fields [Json.str "abbattere il garage"]
    rfl rfl rfl rfl rfl

/-! ### C5 -/

/-- A service state holding a rendered image for session A. -/
def c5_service : ServiceState :=
  { chat_history := [], current_image := some [1, 2, 3],
    original_image := some [1, 2, 3] }

/-- Session A mid-refinement, session B about to start a new chat. -/
def c5_world : World :=
  { service := c5_service, sessA := gen_sess, sessB := init_session }

/-- C5 counterexample: the service state (chat history and image buffers) is
shared across sessions — session B starting a new chat resets the singleton
service, after which session A's refinement, which previously succeeded,
fails with "no current image": an operation in one session changed what the
other observes. -/
theorem C5_counterexample :
    (on_chat_start_step c5_world).service.current_image ≠
      c5_world.service.current_image ∧
    refine_rendering c5_world.service "aggiungi fiori" (Except.ok [image_part]) =
      Except.ok ({ c5_service with current_image := some [9, 9, 9] }, [9, 9, 9]) ∧
    refine_rendering (on_chat_start_step c5_world).service "aggiungi fiori"
        (Except.ok [image_part]) =
      Except.error "Nessuna immagine corrente da raffinare" := by
  refine ⟨?_, rfl, rfl⟩
  intro himg
  simp [on_chat_start_step, reset_session, c5_world, c5_service] at himg

/-- C5 (amended): each session's Chainlit-stored fields (state, uploaded
image, style, element lists) are exclusively owned by that session — another
session's chat start or message handling never alters them — but the chat
history and image buffers live on the process-wide singleton service shared by
all sessions, which e.g. a new session start resets for everyone. -/
theorem C5_session_fields_isolated_service_shared (w : World) (msg : String)
    (ext : Ext) :
    (on_chat_start_step w).sessA = w.sessA ∧
    (stepB_message w msg ext).sessA = w.sessA ∧
    (on_chat_start_step w).service = reset_session w.service := by
  refine ⟨rfl, ?_, rfl⟩
  rw [stepB_message.eq_def]
  cases hh : handle_chat w.sessB w.service msg ext with
  | error e => rfl
  | ok r =>
    obtain ⟨sB, svc', acts⟩ := r
    rfl

end GardenBot

